import Mathlib

/-!
Verification of the Marionete record-and-replay extension.

Shallow embedding of the core subsystems, translated from the repository's
source files:
  lib/timing.js            (TimingEngine: delay math and speed scaling)
  lib/selector-engine.js   (SelectorEngine: ranked locator resolution)
  content/recorder.js      (Recorder: capture state machine)
  content/player.js        (Player: replay state machine)
and the enhanced player variant shipped alongside them (the unnamed player
source with interactability checks in findElementWithRetry).

Timestamps, delays and speed multipliers are JavaScript numbers; they are
modelled as rationals (ℚ), which is exact for every value the claims touch.
Waits, console logging, the highlight overlay ("halo") and other pure side
effects are elided; DOM queries are modelled as capabilities of an abstract
document value, as they are environment operations, not core logic.
-/

namespace Marionete

/-! ## Timing (lib/timing.js) -/

/-- TimingEngine.calculateDelay (timing.js line 21): `Math.max(0, end - start)`. -/
def calculateDelay (s e : ℚ) : ℚ := max 0 (e - s)

/-- TimingEngine.scaleDelay (timing.js line 40): `Math.max(10, delay / speed)`,
the floor of 10 ms preventing a zero-wait livelock. -/
def scaleDelay (delay speed : ℚ) : ℚ := max 10 (delay / speed)

/-- The `timing` object attached to every captured action
(timing.js line 53, createTimingData). -/
structure TimingData where
  timestamp : ℚ
  delay : ℚ
  type : String
deriving DecidableEq, Repr

/-- TimingEngine.createTimingData (timing.js line 53):
`delay` is `previousTimestamp ? calculateDelay(previousTimestamp, timestamp) : 0`.
JavaScript truthiness makes both `null` and `0` fall to the 0 branch, so the
previous timestamp is an `Option` and a present value of 0 also yields 0. -/
def createTimingData (type : String) (timestamp : ℚ) (previousTimestamp : Option ℚ) :
    TimingData :=
  { timestamp := timestamp
    delay :=
      match previousTimestamp with
      | some p => if p = 0 then 0 else calculateDelay p timestamp
      | none => 0
    type := type }

/-! ## Selector engine (lib/selector-engine.js) -/

/-- A DOM element as the selector engine sees it: an identity, its tag, its
text content, and whether it is rendered visible (used only by the spec-side
model of resolution; the code never consults it). -/
structure Element where
  eid : Nat
  tagName : String
  textContent : String
  visible : Bool
deriving DecidableEq, Repr

/-- The selector metadata record built by SelectorEngine.generateSelectors
(selector-engine.js line 12). Each strategy field is `none` when inapplicable,
mirroring the `null` initialisation; string fields hold the already-built
selector text. -/
structure Selectors where
  id : Option String
  name : Option String
  linkText : Option String
  testId : Option String
  className : Option String
  css : Option String
  xpath : Option String
  partialLinkText : Option String
  tagName : String
  textContent : String
deriving DecidableEq, Repr

/-- The DOM query capabilities findInDocument uses on a document or shadow
root: `querySelectorAll`-style matching in document order, tag-name listing,
and XPath evaluation (first ordered node). These are environment operations;
the engine's logic is layered on top of them. -/
structure Doc where
  queryAll : String → List Element
  byTag : String → List Element
  evalXPath : String → Option Element

/-- `doc.querySelector(q)`: the first match of `q` in document order. -/
def querySelector (d : Doc) (q : String) : Option Element :=
  (d.queryAll q).head?

/-- Drops leading whitespace characters from a character list. -/
def dropLeadingWhitespace : List Char → List Char
  | [] => []
  | c :: cs => if c.isWhitespace then dropLeadingWhitespace cs else c :: cs

/-- JavaScript `String.prototype.trim`: whitespace removed from both ends
(written structurally over the character list so that it evaluates in the
kernel). -/
def jsTrim (s : String) : String :=
  ⟨dropLeadingWhitespace ((dropLeadingWhitespace s.data.reverse).reverse)⟩

/-- JavaScript `String.prototype.startsWith`. -/
def jsStartsWith (s p : String) : Bool :=
  p.data.isPrefixOf s.data

/-- JavaScript `String.prototype.includes`: substring containment. -/
def jsIncludes (s sub : String) : Bool :=
  decide (sub.data <:+: s.data)

/-- Level 1 of findInDocument (selector-engine.js line 128): the id selector. -/
def tryId (d : Doc) (s : Selectors) : Option Element :=
  match s.id with
  | some q => if q ≠ "" then querySelector d q else none
  | none => none

/-- Level 2 (line 136): the name-attribute selector. -/
def tryName (d : Doc) (s : Selectors) : Option Element :=
  match s.name with
  | some q => if q ≠ "" then querySelector d q else none
  | none => none

/-- Level 3 (line 144): the data-testid selector. In the source this level
runs BEFORE the link-text level. -/
def tryTestId (d : Doc) (s : Selectors) : Option Element :=
  match s.testId with
  | some q => if q ≠ "" then querySelector d q else none
  | none => none

/-- Level 4 (line 152): exact link text over anchor elements, compared against
the trimmed text content. -/
def tryLinkText (d : Doc) (s : Selectors) : Option Element :=
  match s.linkText with
  | some t =>
    if t ≠ "" ∧ s.tagName = "a" then
      (d.byTag "a").find? (fun l => jsTrim l.textContent = t)
    else none
  | none => none

/-- Level 5 (line 161): the filtered class-name selector. -/
def tryClassName (d : Doc) (s : Selectors) : Option Element :=
  match s.className with
  | some q => if q ≠ "" then querySelector d q else none
  | none => none

/-- Level 6 (line 169): the data-and-aria attribute CSS selector. -/
def tryCss (d : Doc) (s : Selectors) : Option Element :=
  match s.css with
  | some q => if q ≠ "" then querySelector d q else none
  | none => none

/-- Level 7 (line 177): XPath evaluation, first ordered node. -/
def tryXPath (d : Doc) (s : Selectors) : Option Element :=
  match s.xpath with
  | some x => if x ≠ "" then d.evalXPath x else none
  | none => none

/-- Level 8 (line 191): partial link text over anchors, via `includes` on the
untrimmed text content. -/
def tryPartialLinkText (d : Doc) (s : Selectors) : Option Element :=
  match s.partialLinkText with
  | some t =>
    if t ≠ "" ∧ s.tagName = "a" then
      (d.byTag "a").find? (fun l => jsIncludes l.textContent t)
    else none
  | none => none

/-- Level 9 (line 200): last-resort match of any element of the recorded tag
whose trimmed text starts with the captured text prefix. -/
def tryTextContent (d : Doc) (s : Selectors) : Option Element :=
  if s.textContent ≠ "" then
    (d.byTag s.tagName).find? (fun e => jsStartsWith (jsTrim e.textContent) s.textContent)
  else none

/-- SelectorEngine.findInDocument (selector-engine.js lines 126-209): the nine
levels tried in the source's order, each returning its first raw match;
the next level runs only when the previous produced nothing. -/
def findInDocument (d : Doc) (s : Selectors) : Option Element :=
  match tryId d s with
  | some el => some el
  | none =>
  match tryName d s with
  | some el => some el
  | none =>
  match tryTestId d s with
  | some el => some el
  | none =>
  match tryLinkText d s with
  | some el => some el
  | none =>
  match tryClassName d s with
  | some el => some el
  | none =>
  match tryCss d s with
  | some el => some el
  | none =>
  match tryXPath d s with
  | some el => some el
  | none =>
  match tryPartialLinkText d s with
  | some el => some el
  | none => tryTextContent d s

/-- The strategy chain of findInDocument, in the order the source tries it:
id, name, testId, linkText, className, css, xpath, partialLinkText,
textContent. -/
def strategies : List (Doc → Selectors → Option Element) :=
  [tryId, tryName, tryTestId, tryLinkText, tryClassName, tryCss, tryXPath,
   tryPartialLinkText, tryTextContent]

/-- The result of running an ordered chain of strategies: the first strategy
producing a match wins. -/
def resolveChain (d : Doc) (s : Selectors) : List (Doc → Selectors → Option Element) → Option Element
  | [] => none
  | f :: rest =>
    match f d s with
    | some e => some e
    | none => resolveChain d s rest

/-- Modelled from the spec, for comparison with the code (claim C1): the
per-strategy candidate sets in the SPEC's ranked order — identifier,
formalName, exactLinkText, testMarker, stableClassPath, attributePath,
structuralPath, partialLinkText, tagAndTextPrefix. Query-based strategies
contribute every match of their selector; the link-text strategies contribute
the matching anchors; XPath contributes its (at most one) node. -/
def specOrderCandidates (d : Doc) (s : Selectors) : List (List Element) :=
  [ (match s.id with
     | some q => if q ≠ "" then d.queryAll q else []
     | none => [])
  , (match s.name with
     | some q => if q ≠ "" then d.queryAll q else []
     | none => [])
  , (match s.linkText with
     | some t =>
       if t ≠ "" ∧ s.tagName = "a" then
         (d.byTag "a").filter (fun l => jsTrim l.textContent = t)
       else []
     | none => [])
  , (match s.testId with
     | some q => if q ≠ "" then d.queryAll q else []
     | none => [])
  , (match s.className with
     | some q => if q ≠ "" then d.queryAll q else []
     | none => [])
  , (match s.css with
     | some q => if q ≠ "" then d.queryAll q else []
     | none => [])
  , (match s.xpath with
     | some x => if x ≠ "" then (d.evalXPath x).toList else []
     | none => [])
  , (match s.partialLinkText with
     | some t =>
       if t ≠ "" ∧ s.tagName = "a" then
         (d.byTag "a").filter (fun l => jsIncludes l.textContent t)
       else []
     | none => [])
  , (if s.textContent ≠ "" then
       (d.byTag s.tagName).filter (fun e => jsStartsWith (jsTrim e.textContent) s.textContent)
     else []) ]

/-- Modelled from the spec, for comparison with the code (claim C1): walk the
candidate sets in rank order and return via the first strategy that resolves
to exactly one visible candidate. -/
def firstUniqueVisible : List (List Element) → Option Element
  | [] => none
  | cands :: rest =>
    match cands.filter (fun e => e.visible) with
    | [e] => some e
    | _ => firstUniqueVisible rest

/-- Modelled from the spec, for comparison with the code (claim C1): scope
resolution as the spec's sentence states it. -/
def claimResolve (d : Doc) (s : Selectors) : Option Element :=
  firstUniqueVisible (specOrderCandidates d s)

/-! ## Recorder (content/recorder.js) -/

/-- A captured action as the recorder builds it: the JS record's variant tag,
the page URL at capture (for a navigation, the destination), and the
variant-specific payload. Purely informational payload fields the recorder
also stores (elementType, text snippet, inputType, placeholder) are elided;
no claim reads them. -/
structure RAction where
  type : String
  url : String
  fromUrl : Option String
  value : Option String
  key : Option String
  selectors : Option Selectors
  timing : TimingData
deriving DecidableEq, Repr

/-- The recorder's per-page mutable state (recorder.js constructor), after a
session has been started or restored. The halo UI, the sync interval and the
Chrome messaging are side effects and are elided. -/
structure RecorderState where
  isRecording : Bool
  actions : List RAction
  startTime : ℚ
  lastActionTime : ℚ
  startUrl : String
  currentUrl : String
deriving DecidableEq, Repr

namespace Recorder

/-- Recorder.start (recorder.js line 24) on an idle recorder: resets the log
and anchors every clock and URL field at the current instant. -/
def start (now : ℚ) (url : String) : RecorderState :=
  { isRecording := true
    actions := []
    startTime := now
    lastActionTime := now
    startUrl := url
    currentUrl := url }

/-- Recorder.handleClick (recorder.js line 216): appends a click action with
timing relative to the last action time. The upward walk to the nearest
clickable ancestor happens before locator capture; `sel` is the selector set
of the element that walk produced. -/
def handleClick (st : RecorderState) (sel : Selectors) (now : ℚ) (url : String) :
    RecorderState :=
  if !st.isRecording then st
  else
    { st with
      actions := st.actions ++
        [{ type := "click", url := url, fromUrl := none, value := none, key := none
           selectors := some sel
           timing := createTimingData "click" now (some st.lastActionTime) }]
      lastActionTime := now }

/-- Recorder.selectorsMatch (recorder.js line 326): two selector sets match
when the id fields are equal OR the name fields are equal OR the css fields
are equal — including when the compared fields are both absent (null). -/
def selectorsMatch (s1 s2 : Selectors) : Bool :=
  s1.id == s2.id || s1.name == s2.name || s1.css == s2.css

/-- Recorder.handleInput (recorder.js line 280): a raw input signal on an
INPUT/TEXTAREA element. When the last logged action is an input on a matching
selector set less than 1000 ms old, the signal merges into it (value
replaced, timestamp refreshed, lastActionTime untouched); otherwise a new
input action is appended. -/
def handleInput (st : RecorderState) (tag : String) (sel : Selectors) (value : String)
    (now : ℚ) (url : String) : RecorderState :=
  if !st.isRecording then st
  else if !(tag == "INPUT" || tag == "TEXTAREA") then st
  else
    let appended := st.actions ++
      [{ type := "input", url := url, fromUrl := none, value := some value, key := none
         selectors := some sel
         timing := createTimingData "input" now (some st.lastActionTime) }]
    match st.actions.getLast? with
    | some last =>
      if last.type == "input"
          && (match last.selectors with
              | some ls => selectorsMatch ls sel
              | none => false)
          && decide (now - last.timing.timestamp < 1000) then
        { st with
          actions := st.actions.dropLast ++
            [{ last with
               value := some value
               timing := { last.timing with timestamp := now } }] }
      else { st with actions := appended, lastActionTime := now }
    | none => { st with actions := appended, lastActionTime := now }

/-- Recorder.handleKeyDown (recorder.js line 332): only the Enter key is
captured, as a keypress action. -/
def handleKeyDown (st : RecorderState) (key : String) (sel : Selectors) (now : ℚ)
    (url : String) : RecorderState :=
  if !st.isRecording || key ≠ "Enter" then st
  else
    { st with
      actions := st.actions ++
        [{ type := "keypress", url := url, fromUrl := none, value := none
           key := some "Enter", selectors := some sel
           timing := createTimingData "keypress" now (some st.lastActionTime) }]
      lastActionTime := now }

/-- Recorder.handleNavigation (recorder.js line 446): appends one navigation
action when the detected URL actually differs from the last recorded one —
duplicate detector firings for the same URL are no-ops. -/
def handleNavigation (st : RecorderState) (newUrl : String) (now : ℚ) : RecorderState :=
  if !st.isRecording || newUrl = st.currentUrl then st
  else
    { st with
      actions := st.actions ++
        [{ type := "navigation", url := newUrl, fromUrl := some st.currentUrl
           value := none, key := none, selectors := none
           timing := createTimingData "navigation" now (some st.lastActionTime) }]
      lastActionTime := now
      currentUrl := newUrl }

/-- The durable mirror the background store keeps and hands back on restore:
`{actions, startUrl, startTime}` (service worker, RESTORE_RECORDING message).
It travels through message passing, so each restore call receives it by
value. -/
structure Mirror where
  actions : List RAction
  startUrl : String
  startTime : ℚ
deriving DecidableEq, Repr

/-- Recorder.restore (recorder.js line 119): rehydrates every session field
from the mirror; when the current URL differs from the mirror's START url, a
bridging navigation action is appended whose fromUrl is the last action's url
(or the start url for an empty log). The previous per-page state is
overwritten wholesale, which is why the first parameter is unused. -/
def restore (_prev : RecorderState) (data : Mirror) (currentUrl : String) (now : ℚ) :
    RecorderState :=
  let lastActionTime :=
    match data.actions.getLast? with
    | some a => a.timing.timestamp
    | none => data.startTime
  let base : RecorderState :=
    { isRecording := true
      actions := data.actions
      startTime := data.startTime
      lastActionTime := lastActionTime
      startUrl := data.startUrl
      currentUrl := currentUrl }
  if currentUrl ≠ data.startUrl then
    { base with
      actions := base.actions ++
        [{ type := "navigation", url := currentUrl
           fromUrl := some (match data.actions.getLast? with
                            | some a => a.url
                            | none => data.startUrl)
           value := none, key := none, selectors := none
           timing := createTimingData "navigation" now (some lastActionTime) }]
      lastActionTime := now }
  else base

/-- Modelled from the spec, for comparison with the code (claim C3): the
"last known URL" of a mirror — the URL its last recorded action reached, or
the origin URL when the log is empty. -/
def lastKnownUrl (m : Mirror) : String :=
  match m.actions.getLast? with
  | some a => a.url
  | none => m.startUrl

end Recorder

/-! ## Player (content/player.js and the enhanced player variant) -/

/-- A logged action as the player consumes it: the dispatch tag and the
recorded inter-action delay (`action.timing.delay`). Locator resolution is
supplied as an oracle per step, so the selector payload is not repeated
here. -/
structure PAction where
  type : String
  delay : ℚ
deriving DecidableEq, Repr

/-- The outcome play() reports (player.js lines 58 and 62): the success flag,
`stepsExecuted`, and the error message when the run failed. -/
structure PlayResult where
  success : Bool
  stepsExecuted : Nat
  error : Option String
deriving DecidableEq, Repr

namespace Player

/-- The action tags whose handlers resolve a locator before acting:
click, input and keypress. Navigation acts on URLs only. -/
def isLocatorType (t : String) : Bool :=
  t == "click" || t == "input" || t == "keypress"

/-- The error thrown by handleClick/handleInput/handleKeypress when
findElementWithRetry exhausts its retries (player.js line 130 etc.). -/
def notFoundMsg (stepNumber : Nat) (t : String) : String :=
  "Element not found for step " ++ toString stepNumber ++ " (" ++ t ++ ")"

/-- Whether executeAction (player.js line 73) completes without throwing,
given whether the step's locator resolved after all retries: navigation
always completes, the three locator-based handlers throw exactly when
resolution returned null, and the default branch only warns about the
unknown type. -/
def executeActionOk (resolved : Bool) (a : PAction) : Bool :=
  if a.type == "navigation" then true
  else if isLocatorType a.type then resolved
  else true

/-- The loop body of play() (player.js line 41): `i` is `currentStep`;
`total` the log's length. On the first throwing step the catch block reports
`stepsExecuted = currentStep`; when the loop drains, success reports the full
length. `resolveOk j` tells whether step `j`'s locator resolved after all
retries. -/
def playGo (resolveOk : Nat → Bool) (total : Nat) : Nat → List PAction → PlayResult
  | _, [] => { success := true, stepsExecuted := total, error := none }
  | i, a :: rest =>
    if executeActionOk (resolveOk i) a then playGo resolveOk total (i + 1) rest
    else { success := false, stepsExecuted := i, error := some (notFoundMsg (i + 1) a.type) }

/-- Player.play (player.js line 16), with the waits and abort checks elided
(no abort is requested in the modelled run): an empty log fails immediately,
otherwise the loop walks the whole log. -/
def play (resolveOk : Nat → Bool) (actions : List PAction) : PlayResult :=
  if actions.isEmpty then
    { success := false, stepsExecuted := 0, error := some "No actions to play" }
  else playGo resolveOk actions.length 0 actions

/-- The retry loop core of findElementWithRetry in the enhanced player
variant (unnamed player source, lines 523-592): the list holds the outcome of
`SelectorEngine.findElement` at each of the `maxRetries` attempts in order,
and `inter` is `isElementInteractable`. A resolved interactable element is
returned at once; a resolved non-interactable element falls through to the
retry branch exactly like a null resolution — except on the last attempt,
where it is returned anyway; a null resolution on the last attempt yields
null. Backoff waits and the scroll nudges are timing-only and elided. -/
def findElementWithRetryAux (inter : Element → Bool) : List (Option Element) → Option Element
  | [] => none
  | [r] => r
  | none :: r2 :: rest => findElementWithRetryAux inter (r2 :: rest)
  | some e :: r2 :: rest =>
    if inter e then some e else findElementWithRetryAux inter (r2 :: rest)

/-- findElementWithRetry (enhanced player variant, line 523): attempts run
from 1 to maxRetries (8 at every call site). -/
def findElementWithRetry (resolveAttempt : Nat → Option Element) (inter : Element → Bool)
    (maxRetries : Nat) : Option Element :=
  findElementWithRetryAux inter ((List.range maxRetries).map (fun k => resolveAttempt (k + 1)))

/-- isElementInteractable (enhanced player variant, line 597), over an
abstract view of the DOM facts it reads: attached to the document, not hidden
by display/visibility/opacity, non-zero rendered size, not disabled. -/
structure ElementView where
  isConnected : Bool
  display : String
  visibility : String
  opacity : String
  width : ℚ
  height : ℚ
  disabled : Bool
deriving DecidableEq, Repr

/-- isElementInteractable (enhanced player variant, line 597). -/
def isElementInteractable (v : ElementView) : Bool :=
  if !v.isConnected then false
  else if v.display == "none" || v.visibility == "hidden" || v.opacity == "0" then false
  else if v.width == 0 || v.height == 0 then false
  else if v.disabled then false
  else true

/-- The Player instance state that setSpeed touches (player.js line 380):
`this.playbackSpeed`. -/
structure PlayerState where
  playbackSpeed : ℚ
deriving DecidableEq, Repr

/-- Player.setSpeed (player.js line 380): overwrites `this.playbackSpeed`
(and refreshes the halo indicator, elided). -/
def setSpeed (_p : PlayerState) (speed : ℚ) : PlayerState :=
  { playbackSpeed := speed }

/-- An in-flight play() run: the `speed` parameter captured at entry
(player.js line 16) together with the mutable Player instance. The loop's
wait expression closes over the parameter, not over the instance. -/
structure InFlightRun where
  speed : ℚ
  player : PlayerState
deriving DecidableEq, Repr

/-- The wait play() schedules before executing an action (player.js lines
49-52): `scaleDelay(action.timing.delay, speed)` with `speed` the captured
play() parameter; no wait when the recorded delay is not positive. -/
def nextInterActionWait (run : InFlightRun) (a : PAction) : ℚ :=
  if 0 < a.delay then scaleDelay a.delay run.speed else 0

/-- setSpeed while a run is in flight: only the Player instance changes; the
captured parameter cannot be reassigned. -/
def runSetSpeed (run : InFlightRun) (s : ℚ) : InFlightRun :=
  { run with player := setSpeed run.player s }

/-- The per-character delay of handleInput (player.js line 228):
`Math.max(10, 30 / this.playbackSpeed)` — this is the one wait that reads
`this.playbackSpeed`. -/
def inputCharWait (p : PlayerState) : ℚ :=
  max 10 (30 / p.playbackSpeed)

end Player

/-! ## Concrete fixtures used by witnesses and counterexamples -/

/-- An invisible element matched first by the data-testid selector. -/
def elemHidden : Element := ⟨0, "div", "xx", false⟩

/-- A second, visible element matched by the same data-testid selector. -/
def elemVisibleDiv : Element := ⟨2, "div", "yy", true⟩

/-- A visible anchor whose text is exactly the recorded link text. -/
def elemAnchor : Element := ⟨1, "a", "Go", true⟩

/-- A document in which the data-testid selector matches the two divs (the
hidden one first) and the only anchor carries the recorded link text. -/
def cexDoc : Doc :=
  { queryAll := fun q => if q = "[data-testid=go]" then [elemHidden, elemVisibleDiv] else []
    byTag := fun t => if t = "a" then [elemAnchor] else []
    evalXPath := fun _ => none }

/-- A selector set offering both an exact link text and a test-marker
selector. -/
def cexSel : Selectors :=
  { id := none, name := none, linkText := some "Go", testId := some "[data-testid=go]"
    className := none, css := none, xpath := none, partialLinkText := none
    tagName := "a", textContent := "" }

/-- A computed-style view that is hidden by `display: none`. -/
def hiddenView : Player.ElementView :=
  { isConnected := true, display := "none", visibility := "visible", opacity := "1"
    width := 5, height := 5, disabled := false }

/-- An input element fixture. -/
def elemBox : Element := ⟨3, "input", "", true⟩

/-- An interactability oracle under which every resolved element is hidden. -/
def interHiddenAll : Element → Bool := fun _ => Player.isElementInteractable hiddenView

/-- Two URLs used by the navigation fixtures. -/
def siteA : String := "https://a.test/"

/-- The second URL of the navigation fixtures. -/
def siteB : String := "https://b.test/"

/-- A recorded navigation from siteA to siteB at timestamp 50. -/
def navAB : RAction :=
  { type := "navigation", url := siteB, fromUrl := some siteA, value := none, key := none
    selectors := none, timing := { timestamp := 50, delay := 40, type := "navigation" } }

/-- A mirror whose log already ends with the navigation to siteB. -/
def mirror0 : Recorder.Mirror := { actions := [navAB], startUrl := siteA, startTime := 10 }

/-- A freshly started recorder on siteA at time 0. -/
def rec0 : RecorderState := Recorder.start 0 siteA

/-- A selector set with an id, as generateSelectors builds for `#box`. -/
def selBox : Selectors :=
  { id := some "#box", name := none, linkText := none, testId := none, className := none
    css := none, xpath := none, partialLinkText := none, tagName := "input", textContent := "" }

/-- A selector set of an id-less input: only name/css/tag fields present. -/
def selNoId1 : Selectors :=
  { id := none, name := some "input[name=\"q1\"]", linkText := none, testId := none
    className := none, css := some "input[type=\"text\"]", xpath := some "/html/body/input[1]"
    partialLinkText := none, tagName := "input", textContent := "" }

/-- A selector set of a DIFFERENT id-less input: every strategy differs from
`selNoId1` except the absent id. -/
def selNoId2 : Selectors :=
  { id := none, name := some "input[name=\"q2\"]", linkText := none, testId := none
    className := none, css := some "input[type=\"search\"]", xpath := some "/html/body/input[2]"
    partialLinkText := none, tagName := "input", textContent := "" }

/-- A navigation action in a replayed log. -/
def actNav : PAction := ⟨"navigation", 0⟩

/-- A click action in a replayed log, 120 ms after the previous action. -/
def actClick : PAction := ⟨"click", 120⟩

/-- An action whose type tag no handler knows. -/
def actUnknown : PAction := ⟨"hover", 50⟩

/-- An input action in a replayed log. -/
def actInput : PAction := ⟨"input", 30⟩

/-- A two-step log whose second step is a click. -/
def cex4Log : List PAction := [actNav, actClick]

/-- A three-step log with an unknown action in the middle. -/
def cex10Log : List PAction := [actClick, actUnknown, actInput]

/-- A resolution oracle that never finds the element. -/
def resolveNone : Nat → Bool := fun _ => false

/-- A resolution oracle that always finds the element. -/
def resolveAll : Nat → Bool := fun _ => true

/-! ## Helper lemmas -/

/-- findInDocument is the strategy chain run in the source's order. -/
theorem findInDocument_eq_resolveChain (d : Doc) (s : Selectors) :
    findInDocument d s = resolveChain d s strategies := by
  unfold findInDocument strategies
  simp only [resolveChain]
  cases tryId d s <;> cases tryName d s <;> cases tryTestId d s <;> cases tryLinkText d s <;>
    cases tryClassName d s <;> cases tryCss d s <;> cases tryXPath d s <;>
    cases tryPartialLinkText d s <;> cases tryTextContent d s <;> rfl

/-- Running a strategy chain returns the value of the first strategy that
matches: whenever strategy `i` matches, the chain's result is the result of
some strategy `j ≤ i` that matches while all strategies before `j` match
nothing. -/
theorem resolveChain_first (d : Doc) (s : Selectors) :
    ∀ (l : List (Doc → Selectors → Option Element)) (i : Nat) (hi : i < l.length),
      ((l.get ⟨i, hi⟩) d s).isSome →
      ∃ j, ∃ hj : j < l.length, j ≤ i
        ∧ (∀ k (hk : k < j), (l.get ⟨k, hk.trans hj⟩) d s = none)
        ∧ ((l.get ⟨j, hj⟩) d s).isSome
        ∧ resolveChain d s l = (l.get ⟨j, hj⟩) d s := by
  intro l
  induction l with
  | nil => intro i hi; exact absurd hi (Nat.not_lt_zero i)
  | cons f t ih =>
    intro i hi hsome
    cases hf : f d s with
    | some b =>
      refine ⟨0, Nat.succ_pos _, Nat.zero_le _, ?_, ?_, ?_⟩
      · intro k hk; exact absurd hk (Nat.not_lt_zero k)
      · simpa [List.get] using congrArg Option.isSome hf
      · simp [resolveChain, hf, List.get]
    | none =>
      cases i with
      | zero =>
        rw [show (f :: t).get ⟨0, hi⟩ = f from rfl, hf] at hsome
        exact absurd hsome (by simp)
      | succ i' =>
        have hi' : i' < t.length := Nat.lt_of_succ_lt_succ hi
        have hsome' : ((t.get ⟨i', hi'⟩) d s).isSome := by
          simpa [List.get] using hsome
        obtain ⟨j, hj, hji, hnone, hjs, heq⟩ := ih i' hi' hsome'
        refine ⟨j + 1, Nat.succ_lt_succ hj, Nat.succ_le_succ hji, ?_, ?_, ?_⟩
        · intro k hk
          cases k with
          | zero => simpa [List.get] using hf
          | succ k' => simpa [List.get] using hnone k' (Nat.lt_of_succ_lt_succ hk)
        · simpa [List.get] using hjs
        · simpa [resolveChain, hf, List.get] using heq

/-- Any element the retry loop returns was either judged interactable or came
out of the loop's final attempt. -/
theorem findRetryAux_interactable_or_last (inter : Element → Bool) :
    ∀ (rs : List (Option Element)) (e' : Element),
      Player.findElementWithRetryAux inter rs = some e' →
      inter e' = true ∨ rs.getLast? = some (some e') := by
  intro rs
  induction rs with
  | nil => intro e' h; simp [Player.findElementWithRetryAux] at h
  | cons r rest ih =>
    intro e' h
    cases rest with
    | nil =>
      right
      have hr : Player.findElementWithRetryAux inter [r] = r := by cases r <;> rfl
      rw [hr] at h
      simp [h]
    | cons r2 rest2 =>
      cases r with
      | none =>
        rw [show Player.findElementWithRetryAux inter (none :: r2 :: rest2)
              = Player.findElementWithRetryAux inter (r2 :: rest2) from rfl] at h
        rcases ih e' h with hi | hl
        · exact Or.inl hi
        · exact Or.inr (by simpa [List.getLast?_cons_cons] using hl)
      | some e0 =>
        by_cases hint : inter e0 = true
        · rw [show Player.findElementWithRetryAux inter (some e0 :: r2 :: rest2)
                = if inter e0 then some e0 else Player.findElementWithRetryAux inter (r2 :: rest2)
              from rfl, if_pos hint] at h
          obtain rfl : e0 = e' := by simpa using h
          exact Or.inl hint
        · rw [show Player.findElementWithRetryAux inter (some e0 :: r2 :: rest2)
                = if inter e0 then some e0 else Player.findElementWithRetryAux inter (r2 :: rest2)
              from rfl, if_neg hint] at h
          rcases ih e' h with hi | hl
          · exact Or.inl hi
          · exact Or.inr (by simpa [List.getLast?_cons_cons] using hl)

/-- A locator-typed action tag is not the navigation tag. -/
theorem isLocatorType_beq_nav (t : String) (h : Player.isLocatorType t = true) :
    (t == "navigation") = false := by
  simp only [Player.isLocatorType, Bool.or_eq_true, beq_iff_eq] at h
  rcases h with (h | h) | h <;> simp [h]

/-- The play() loop on a log whose steps all execute cleanly reports success
with the full step count. -/
theorem playGo_all_ok (resolveOk : Nat → Bool) (total : Nat) :
    ∀ (l : List PAction) (i0 : Nat),
      (∀ j (hj : j < l.length),
        Player.executeActionOk (resolveOk (i0 + j)) (l.get ⟨j, hj⟩) = true) →
      Player.playGo resolveOk total i0 l =
        { success := true, stepsExecuted := total, error := none } := by
  intro l
  induction l with
  | nil => intro i0 _; rfl
  | cons a t ih =>
    intro i0 hok
    have ha : Player.executeActionOk (resolveOk i0) a = true := by
      simpa [List.get] using hok 0 (Nat.succ_pos _)
    have ht : ∀ j (hj : j < t.length),
        Player.executeActionOk (resolveOk (i0 + 1 + j)) (t.get ⟨j, hj⟩) = true := by
      intro j hj
      have := hok (j + 1) (Nat.succ_lt_succ hj)
      simpa [List.get, Nat.add_comm, Nat.add_assoc, Nat.add_left_comm] using this
    simp [Player.playGo, ha, ih (i0 + 1) ht]

/-- The play() loop on a log whose first throwing step sits at offset `p`
fails there, reporting `stepsExecuted = i0 + p` and the not-found message of
that step. -/
theorem playGo_fail (resolveOk : Nat → Bool) (total : Nat) :
    ∀ (l : List PAction) (i0 p : Nat) (hp : p < l.length),
      (∀ j (hj : j < p),
        Player.executeActionOk (resolveOk (i0 + j)) (l.get ⟨j, hj.trans hp⟩) = true) →
      Player.executeActionOk (resolveOk (i0 + p)) (l.get ⟨p, hp⟩) = false →
      Player.playGo resolveOk total i0 l =
        { success := false, stepsExecuted := i0 + p
          error := some (Player.notFoundMsg (i0 + p + 1) ((l.get ⟨p, hp⟩).type)) } := by
  intro l
  induction l with
  | nil => intro i0 p hp; exact absurd hp (Nat.not_lt_zero p)
  | cons a t ih =>
    intro i0 p hp hok hfail
    cases p with
    | zero =>
      have hfa : Player.executeActionOk (resolveOk i0) a = false := by
        simpa [List.get] using hfail
      simp [Player.playGo, hfa]
    | succ p' =>
      have hp' : p' < t.length := Nat.lt_of_succ_lt_succ hp
      have ha : Player.executeActionOk (resolveOk i0) a = true := by
        simpa [List.get] using hok 0 (Nat.succ_pos _)
      have hok' : ∀ j (hj : j < p'),
          Player.executeActionOk (resolveOk (i0 + 1 + j)) (t.get ⟨j, hj.trans hp'⟩) = true := by
        intro j hj
        have := hok (j + 1) (Nat.succ_lt_succ hj)
        simpa [List.get, Nat.add_comm, Nat.add_assoc, Nat.add_left_comm] using this
      have hfail' : Player.executeActionOk (resolveOk (i0 + 1 + p')) (t.get ⟨p', hp'⟩) = false := by
        have heq : i0 + 1 + p' = i0 + (p' + 1) := by omega
        rw [heq]
        simpa [List.get] using hfail
      have := ih (i0 + 1) p' hp' hok' hfail'
      have harith : i0 + 1 + p' = i0 + (p' + 1) := by omega
      rw [harith] at this
      simpa [Player.playGo, ha, List.get] using this

/-! ## Claim theorems -/

/-- C8: for all delays d and positive speeds s, scale(d, s) = max(10, d/s);
in particular scale(5, 1) = 10, scale(1000, 2) = 500 and scale(100, 4) = 25. -/
theorem claim8_scale_delay :
    (∀ d s : ℚ, 0 < s → scaleDelay d s = max 10 (d / s))
    ∧ scaleDelay 5 1 = 10 ∧ scaleDelay 1000 2 = 500 ∧ scaleDelay 100 4 = 25 := by
  refine ⟨fun d s _ => rfl, ?_, ?_, ?_⟩ <;> norm_num [scaleDelay]

/-- C8 witness: the general scaling law applied at delay 7 and speed 2. -/
theorem claim8_scale_delay_witness :
    (0 : ℚ) < 2 ∧ scaleDelay 7 2 = max 10 (7 / 2) :=
  ⟨by norm_num, claim8_scale_delay.1 7 2 (by norm_num)⟩

/-- C6 counterexample: a run started with play(log, 1) whose player received
setSpeed(4) mid-flight. The claim predicts the next scheduled inter-action
delay of a 1000 ms step to be scale(1000, 4) = 250, but the loop's wait uses
the captured play() parameter and stays at 1000. -/
theorem claim6_counterexample :
    (Player.runSetSpeed ⟨1, ⟨1⟩⟩ 4).player.playbackSpeed = 4
    ∧ Player.nextInterActionWait (Player.runSetSpeed ⟨1, ⟨1⟩⟩ 4) ⟨"click", 1000⟩ = 1000
    ∧ scaleDelay 1000 4 = 250
    ∧ Player.nextInterActionWait (Player.runSetSpeed ⟨1, ⟨1⟩⟩ 4) ⟨"click", 1000⟩
        ≠ scaleDelay 1000 4 := by
  refine ⟨rfl, ?_, ?_, ?_⟩ <;>
    norm_num [Player.nextInterActionWait, Player.runSetSpeed, Player.setSpeed, scaleDelay]

/-- C6 as amended: setSpeed called mid-run updates the multiplier used by the
per-character typing waits of subsequent input actions, but the inter-action
delays of the in-flight play() run keep the speed captured when play() was
called — the very next scheduled inter-action delay is unaffected by
setSpeed. -/
theorem claim6_set_speed_amended (run : Player.InFlightRun) (s : ℚ) (a : PAction) :
    Player.nextInterActionWait (Player.runSetSpeed run s) a = Player.nextInterActionWait run a
    ∧ Player.inputCharWait (Player.runSetSpeed run s).player = max 10 (30 / s) := by
  constructor <;>
    simp [Player.nextInterActionWait, Player.runSetSpeed, Player.setSpeed, Player.inputCharWait]

/-- C7 counterexample: a recording started at time 100 whose first click
arrives at time 150. The first action's delay is 50, not 0: the recorder
passes the session start time as the previous timestamp of the first
action. -/
theorem claim7_counterexample :
    ((Recorder.handleClick (Recorder.start 100 siteA) selBox 150 siteA).actions.map
        (fun a => a.timing.delay)) = [50]
    ∧ (50 : ℚ) ≠ 0 := by
  constructor
  · norm_num [Recorder.handleClick, Recorder.start, createTimingData, calculateDelay]
  · norm_num

/-- C7 as amended: delay(t0, t1) = max(0, t1 − t0) for all timestamps, every
captured action's delay is non-negative, and the first captured action's
delay equals the elapsed time between the recording start and the first
interaction (0 only in the degenerate case of a start timestamp of 0, which
JavaScript treats as falsy). -/
theorem claim7_delay_amended (t0 t1 : ℚ) (u : String) (sel : Selectors) :
    (∀ a b : ℚ, calculateDelay a b = max 0 (b - a) ∧ 0 ≤ calculateDelay a b)
    ∧ (∀ (ty : String) (ts : ℚ) (p : Option ℚ), 0 ≤ (createTimingData ty ts p).delay)
    ∧ ((Recorder.handleClick (Recorder.start t0 u) sel t1 u).actions.map
        (fun a => a.timing.delay)) = [if t0 = 0 then 0 else max 0 (t1 - t0)] := by
  refine ⟨fun a b => ⟨rfl, le_max_left 0 _⟩, ?_, ?_⟩
  · intro ty ts p
    cases p with
    | none => simp [createTimingData]
    | some q =>
      simp only [createTimingData]
      split
      · exact le_refl 0
      · exact le_max_left 0 _
  · simp [Recorder.handleClick, Recorder.start, createTimingData, calculateDelay]

/-- C3 counterexample: a mirror whose log already ends with the navigation to
siteB, restored on siteB. The current URL equals the mirror's last known URL,
so the claim's synthesis condition says no bridging navigation — yet restore
appends one (a degenerate siteB → siteB hop), because the code compares the
current URL against the mirror's START url, not the last known URL. -/
theorem claim3_counterexample :
    Recorder.lastKnownUrl mirror0 = siteB
    ∧ (Recorder.restore rec0 mirror0 siteB 60).actions.length = mirror0.actions.length + 1
    ∧ (Recorder.restore rec0 mirror0 siteB 60).actions.getLast? = some
        { type := "navigation", url := siteB, fromUrl := some siteB, value := none
          key := none, selectors := none
          timing := { timestamp := 60, delay := 10, type := "navigation" } } := by
  have hne : ¬ (("https://b.test/" : String) = "https://a.test/") := by decide
  refine ⟨rfl, ?_, ?_⟩ <;>
    norm_num [Recorder.restore, Recorder.lastKnownUrl, mirror0, navAB, siteA, siteB,
      createTimingData, calculateDelay, hne]

/-- C3 as amended: calling ResumeCapture twice with the same mirror state
produces the same in-progress log — restore rebuilds the session from the
mirror alone, so the bridging navigation (synthesized when the current URL
differs from the mirror's START url, not its last known URL) is appended at
most once and never duplicated by the second call. -/
theorem claim3_resume_idempotent_amended (p q : RecorderState) (m : Recorder.Mirror)
    (u : String) (t t' : ℚ) :
    Recorder.restore (Recorder.restore p m u t') m u t = Recorder.restore q m u t
    ∧ (Recorder.restore p m u t).actions.length
        = m.actions.length + (if u = m.startUrl then 0 else 1) := by
  refine ⟨rfl, ?_⟩
  by_cases h : u = m.startUrl
  · simp [Recorder.restore, h]
  · simp [Recorder.restore, h]

/-- C5: two TextEntry captures on the same locator in a fresh recording,
separated by less than 1000 ms of capture time, collapse into exactly one
logged action whose value is replaced and whose timestamp is refreshed;
separated by 1000 ms or more they produce exactly two actions. -/
theorem claim5_text_entry_merge (st : RecorderState) (sel : Selectors) (v1 v2 : String)
    (t1 t2 : ℚ) (u1 u2 : String) (hrec : st.isRecording = true) (hempty : st.actions = []) :
    ((t2 - t1 < 1000) →
      ((Recorder.handleInput (Recorder.handleInput st "INPUT" sel v1 t1 u1)
          "INPUT" sel v2 t2 u2).actions.map (fun a => (a.type, a.value, a.timing.timestamp)))
        = [("input", some v2, t2)])
    ∧ ((1000 ≤ t2 - t1) →
      (Recorder.handleInput (Recorder.handleInput st "INPUT" sel v1 t1 u1)
          "INPUT" sel v2 t2 u2).actions.length = 2) := by
  obtain ⟨rec, acts, sT, lA, sU, cU⟩ := st
  simp only [] at hrec hempty
  subst hrec hempty
  constructor
  · intro h
    simp [Recorder.handleInput, Recorder.selectorsMatch, createTimingData, h]
  · intro h
    have h' : ¬ (t2 - t1 < 1000) := not_lt.mpr h
    simp [Recorder.handleInput, Recorder.selectorsMatch, createTimingData, h']

/-- C5 witness: captures of "h" then "he" on the same locator at times 100
and 600 in a fresh recording. -/
theorem claim5_text_entry_merge_witness :
    (rec0.isRecording = true ∧ rec0.actions = [])
    ∧ (((600 : ℚ) - 100 < 1000 →
        ((Recorder.handleInput (Recorder.handleInput rec0 "INPUT" selBox "h" 100 siteA)
            "INPUT" selBox "he" 600 siteA).actions.map
          (fun a => (a.type, a.value, a.timing.timestamp)))
          = [("input", some "he", 600)])
      ∧ ((1000 : ℚ) ≤ 600 - 100 →
        (Recorder.handleInput (Recorder.handleInput rec0 "INPUT" selBox "h" 100 siteA)
            "INPUT" selBox "he" 600 siteA).actions.length = 2)) :=
  ⟨⟨rfl, rfl⟩, claim5_text_entry_merge rec0 selBox "h" "he" 100 600 siteA siteA rfl rfl⟩

/-- C9: the capture-time merge test compares two selector sets by id OR name
OR css equality with absent strategies equal as null on both sides, so two
consecutive input signals within one second on elements that both lack an id
merge into one action even when every present strategy differs — i.e. even
when they target two distinct elements. -/
theorem claim9_null_id_merge (st : RecorderState) (sel1 sel2 : Selectors) (v1 v2 : String)
    (t1 t2 : ℚ) (u1 u2 : String) (hrec : st.isRecording = true) (hempty : st.actions = [])
    (hid1 : sel1.id = none) (hid2 : sel2.id = none) (ht : t2 - t1 < 1000) :
    Recorder.selectorsMatch sel1 sel2 = true
    ∧ (Recorder.handleInput (Recorder.handleInput st "INPUT" sel1 v1 t1 u1)
        "INPUT" sel2 v2 t2 u2).actions.length = 1 := by
  have hmatch : Recorder.selectorsMatch sel1 sel2 = true := by
    simp [Recorder.selectorsMatch, hid1, hid2]
  obtain ⟨rec, acts, sT, lA, sU, cU⟩ := st
  simp only [] at hrec hempty
  subst hrec hempty
  refine ⟨hmatch, ?_⟩
  simp [Recorder.handleInput, hmatch, createTimingData, ht]

/-- C9 witness: two id-less selector sets that differ in every present
strategy still merge within the 1-second window. -/
theorem claim9_null_id_merge_witness :
    (rec0.isRecording = true ∧ rec0.actions = [] ∧ selNoId1.id = none ∧ selNoId2.id = none
      ∧ (250 : ℚ) - 80 < 1000 ∧ selNoId1 ≠ selNoId2)
    ∧ (Recorder.selectorsMatch selNoId1 selNoId2 = true
      ∧ (Recorder.handleInput (Recorder.handleInput rec0 "INPUT" selNoId1 "a" 80 siteA)
          "INPUT" selNoId2 "b" 250 siteA).actions.length = 1) :=
  ⟨⟨rfl, rfl, rfl, rfl, by norm_num, by decide⟩,
    claim9_null_id_merge rec0 selNoId1 selNoId2 "a" "b" 80 250 siteA siteA
      rfl rfl rfl rfl (by norm_num)⟩

/-- C2: every element the retry loop returns before its final attempt passed
the interactability check; a resolved element that fails the check is retried
exactly like a not-found result (replacing it by a null resolution changes
nothing); and on the final attempt a resolved element is used anyway rather
than failing the step. -/
theorem claim2_interactability (inter : Element → Bool) (e e' : Element)
    (rest rs : List (Option Element))
    (hrest : rest ≠ []) (hnot : inter e = false)
    (hres : Player.findElementWithRetryAux inter rs = some e') :
    Player.findElementWithRetryAux inter (some e :: rest)
        = Player.findElementWithRetryAux inter (none :: rest)
    ∧ Player.findElementWithRetryAux inter [some e] = some e
    ∧ (inter e' = true ∨ rs.getLast? = some (some e')) := by
  refine ⟨?_, rfl, findRetryAux_interactable_or_last inter rs e' hres⟩
  cases rest with
  | nil => exact absurd rfl hrest
  | cons r2 rest2 => simp [Player.findElementWithRetryAux, hnot]

/-- C2 witness: an interactability oracle under which the resolved input is
hidden by display none, a two-attempt tail, and a singleton final-attempt
run. -/
theorem claim2_interactability_witness :
    (([none] : List (Option Element)) ≠ [] ∧ interHiddenAll elemBox = false
      ∧ Player.findElementWithRetryAux interHiddenAll [some elemBox] = some elemBox)
    ∧ (Player.findElementWithRetryAux interHiddenAll [some elemBox, none]
        = Player.findElementWithRetryAux interHiddenAll [none, none]
      ∧ Player.findElementWithRetryAux interHiddenAll [some elemBox] = some elemBox
      ∧ (interHiddenAll elemBox = true
        ∨ ([some elemBox] : List (Option Element)).getLast? = some (some elemBox))) :=
  ⟨⟨by decide, by decide, by decide⟩,
    claim2_interactability interHiddenAll elemBox elemBox [none] [some elemBox]
      (by decide) (by decide) (by decide)⟩

/-- C4: when every step before index i executes cleanly and step i (i > 0) is
a locator-based action whose resolution fails after all retries, play()
aborts the whole run with a failed result whose stepsExecuted is i — the
number of successfully executed steps, i.e. the 1-based index of the last
successful step — and whose error carries the failing step's not-found
message. -/
theorem claim4_failed_run_reports_step (resolveOk : Nat → Bool) (actions : List PAction)
    (i : Nat) (hi : i < actions.length) (hpos : 0 < i)
    (hprev : ∀ j (hj : j < i),
      Player.executeActionOk (resolveOk j) (actions.get ⟨j, hj.trans hi⟩) = true)
    (htype : Player.isLocatorType ((actions.get ⟨i, hi⟩).type) = true)
    (hres : resolveOk i = false) :
    Player.play resolveOk actions =
      { success := false, stepsExecuted := i
        error := some (Player.notFoundMsg (i + 1) ((actions.get ⟨i, hi⟩).type)) } := by
  have hne : actions.isEmpty = false := by
    cases actions with
    | nil => exact absurd hi (by simp)
    | cons a t => rfl
  have hfail : Player.executeActionOk (resolveOk i) (actions.get ⟨i, hi⟩) = false := by
    generalize hA : actions.get ⟨i, hi⟩ = a at htype ⊢
    have hb := isLocatorType_beq_nav _ htype
    simp [Player.executeActionOk, hb, htype, hres]
  have hgo := playGo_fail resolveOk actions.length actions 0 i hi
    (by intro j hj; simpa using hprev j hj) (by simpa using hfail)
  simpa [Player.play, hne] using hgo

/-- C4 witness: a two-action log — navigation then click — whose click never
resolves: the run fails with stepsExecuted = 1. -/
theorem claim4_failed_run_reports_step_witness :
    (1 < cex4Log.length ∧ 0 < 1 ∧ Player.isLocatorType "click" = true
      ∧ resolveNone 1 = false)
    ∧ Player.play resolveNone cex4Log =
        { success := false, stepsExecuted := 1
          error := some (Player.notFoundMsg 2 "click") } :=
  ⟨⟨by decide, by decide, by decide, by decide⟩,
    claim4_failed_run_reports_step resolveNone cex4Log 1 (by decide) (by decide)
      (by
        intro j hj
        have hj0 : j = 0 := by omega
        subst hj0
        rfl)
      (by decide) (by decide)⟩

/-- C10: an action whose type tag is none of navigation/click/input/keypress
never fails the run — executeAction's default branch only warns — and a log
containing such an action still finishes successfully with stepsExecuted
counting every action, the skipped one included, provided every locator-based
step resolves. -/
theorem claim10_unknown_type_skipped (resolveOk : Nat → Bool) (actions : List PAction)
    (hne : actions ≠ [])
    (hok : ∀ j (hj : j < actions.length),
      Player.isLocatorType ((actions.get ⟨j, hj⟩).type) = true → resolveOk j = true) :
    (∀ (a : PAction) (r : Bool),
      a.type ∉ (["navigation", "click", "input", "keypress"] : List String) →
      Player.executeActionOk r a = true)
    ∧ Player.play resolveOk actions =
        { success := true, stepsExecuted := actions.length, error := none } := by
  constructor
  · intro a r h
    simp only [List.mem_cons, List.mem_singleton, not_or] at h
    obtain ⟨h1, h2, h3, h4⟩ := h
    simp [Player.executeActionOk, Player.isLocatorType, h1, h2, h3, h4]
  · have hs : actions.isEmpty = false := by
      cases actions with
      | nil => exact absurd rfl hne
      | cons a t => rfl
    have hall : ∀ j (hj : j < actions.length),
        Player.executeActionOk (resolveOk (0 + j)) (actions.get ⟨j, hj⟩) = true := by
      intro j hj
      rw [Nat.zero_add]
      have hk := hok j hj
      generalize hA : actions.get ⟨j, hj⟩ = a at hk ⊢
      by_cases hnav : (a.type == "navigation") = true
      · simp [Player.executeActionOk, hnav]
      · by_cases hloc : Player.isLocatorType a.type = true
        · simp [Player.executeActionOk, hnav, hloc, hk hloc]
        · simp [Player.executeActionOk, hnav, hloc]
    have hgo := playGo_all_ok resolveOk actions.length actions 0 hall
    simpa [Player.play, hs] using hgo

/-- C10 witness: a click, an unknown "hover" action and an input, all
resolving: the run completes with stepsExecuted = 3. -/
theorem claim10_unknown_type_skipped_witness :
    (cex10Log ≠ []
      ∧ actUnknown.type ∉ (["navigation", "click", "input", "keypress"] : List String))
    ∧ ((∀ (a : PAction) (r : Bool),
        a.type ∉ (["navigation", "click", "input", "keypress"] : List String) →
        Player.executeActionOk r a = true)
      ∧ Player.play resolveAll cex10Log =
          { success := true, stepsExecuted := cex10Log.length, error := none }) :=
  ⟨⟨by decide, by decide⟩,
    claim10_unknown_type_skipped resolveAll cex10Log (by decide)
      (fun j hj _ => rfl)⟩

/-- C1 counterexample: a document whose only anchor carries exactly the
recorded link text while the data-testid selector matches two other elements,
the first of them invisible. Under the claim — spec order with exactLinkText
ranked above testMarker and a strategy winning only with exactly one visible
candidate — resolution returns the anchor; the code returns the invisible
first raw testMarker match, because it tries testId before link text and
takes the first match with no visibility or uniqueness filtering. -/
theorem claim1_counterexample :
    findInDocument cexDoc cexSel = some elemHidden
    ∧ claimResolve cexDoc cexSel = some elemAnchor
    ∧ tryLinkText cexDoc cexSel = some elemAnchor
    ∧ elemHidden ≠ elemAnchor
    ∧ elemHidden.visible = false := by
  refine ⟨by decide, by decide, by decide, by decide, rfl⟩

/-- C1 as amended: resolution within a scope tries the strategies in the
code's order — identifier, formalName, testMarker, exactLinkText,
stableClassPath, attributePath, structuralPath, partialLinkText,
tagAndTextPrefix — and returns the first raw match (in document order) of the
first strategy that matches anything, with no visibility or uniqueness
filtering; in particular resolution never returns a match from strategy Sk
when an earlier strategy in this order also matches some element. -/
theorem claim1_strategy_order_amended (d : Doc) (s : Selectors) (i : Nat)
    (hi : i < strategies.length) (e : Element)
    (hmatch : (strategies.get ⟨i, hi⟩) d s = some e) :
    findInDocument d s = resolveChain d s strategies
    ∧ ∃ j, ∃ hj : j < strategies.length, j ≤ i
        ∧ (∀ k (hk : k < j), (strategies.get ⟨k, hk.trans hj⟩) d s = none)
        ∧ ((strategies.get ⟨j, hj⟩) d s).isSome
        ∧ findInDocument d s = (strategies.get ⟨j, hj⟩) d s := by
  have hsome : ((strategies.get ⟨i, hi⟩) d s).isSome := by
    rw [hmatch]; rfl
  obtain ⟨j, hj, hji, hnone, hjs, heq⟩ := resolveChain_first d s strategies i hi hsome
  exact ⟨findInDocument_eq_resolveChain d s,
    j, hj, hji, hnone, hjs, (findInDocument_eq_resolveChain d s).trans heq⟩

/-- C1 witness: in the counterexample document the link-text strategy (index
3 of the code's chain) matches the anchor, so resolution returns the value of
the first matching strategy at some index j ≤ 3 — here the testMarker
strategy at j = 2. -/
theorem claim1_strategy_order_amended_witness :
    ((strategies.get ⟨3, by decide⟩) cexDoc cexSel = some elemAnchor)
    ∧ (findInDocument cexDoc cexSel = resolveChain cexDoc cexSel strategies
      ∧ ∃ j, ∃ hj : j < strategies.length, j ≤ 3
          ∧ (∀ k (hk : k < j), (strategies.get ⟨k, hk.trans hj⟩) cexDoc cexSel = none)
          ∧ ((strategies.get ⟨j, hj⟩) cexDoc cexSel).isSome
          ∧ findInDocument cexDoc cexSel = (strategies.get ⟨j, hj⟩) cexDoc cexSel) :=
  ⟨by decide,
    claim1_strategy_order_amended cexDoc cexSel 3 (by decide) elemAnchor (by decide)⟩

end Marionete
